import Mathlib

/-!
Verification of the model-config exporter in `merlin/systems/dag/ops/tensorflow.py`
(class `PredictTensorflow`) and its dimension-computation helper.

The Python source is embedded shallowly:
* `ColumnSchema` / `Schema` entries become a Lean structure with the fields the
  exporter reads (name, dtype, list flags, shape dims, value_count property).
* `compute_dims` and `add_model_param` live in `merlin/systems/dag/ops/__init__.py`
  and `operator.py`, which are not part of the provided sources; they are modelled
  from the specification (marked in their doc comments).
* Fallible Python code (KeyError, IndexError, missing files) returns `Option` or
  `Except`.
-/

/-- Element dtypes that appear in the exporter's schemas; the exporter only
carries them around, so a closed enumeration suffices. -/
inductive DType where
  | float32
  | float64
  | int32
  | int64
  | boolean
deriving DecidableEq, Repr

/-- One entry of a shape tuple as written in Python: `None` (variable),
a literal integer, or a `(min, max)` range pair. -/
inductive Dim where
  | var
  | lit (n : Int)
  | rangePair (lo hi : Int)
deriving DecidableEq, Repr

/-- The fields of `merlin.schema.ColumnSchema` that the exporter reads:
name, element dtype, the list flags, the optional explicit shape `dims`,
and the `value_count` property (stored as a `(min, max)` pair). -/
structure ColumnSchema where
  name : String
  dtype : DType
  is_list : Bool := false
  is_ragged : Bool := false
  dims : Option (List Dim) := none
  value_count : Option (Int × Int) := none
deriving DecidableEq, Repr

/-- Mapping of a single shape entry to a backend dim: `None` and `(min, max)`
range pairs become `-1`, literal integers are kept. -/
def dimToInt : Dim → Int
  | Dim.lit n => n
  | Dim.var => -1
  | Dim.rangePair _ _ => -1

/-- Modelled from the spec: `compute_dims` from `merlin/systems/dag/ops/__init__.py`
(imported by `tensorflow.py` but not among the provided sources). Per the spec:
a plain scalar column maps to `[-1, 1]`; a list column without explicit shape
(ragged or not) maps to `[-1, -1]`; a column with explicit shape dims maps each
non-leading `None`/range entry to `-1` and keeps literal integers, and the first
dimension is the batch dimension, always `-1`. -/
def compute_dims (cs : ColumnSchema) : List Int :=
  match cs.dims with
  | some ds => -1 :: (ds.drop 1).map dimToInt
  | none => if cs.is_list then [-1, -1] else [-1, 1]

/-- A column used in the C1 counterexample: an explicit shape whose leading
dimension is the literal `5` rather than `None`. -/
def c1_literal_batch_column : ColumnSchema :=
  { name := "col", dtype := DType.int32, dims := some [Dim.lit 5, Dim.lit 2] }

/-- C1 counterexample: the claim asserts both that every literal integer dim is
kept and that the first element of the result is always `-1`; for a column whose
explicit shape starts with the literal `5` these conflict, and the computation
forces the leading batch dim to `-1`, so the result is not the elementwise
mapping `[5, 2]` of the shape. -/
theorem c1_counterexample :
    compute_dims c1_literal_batch_column = [-1, 2] ∧
      compute_dims c1_literal_batch_column ≠
        List.map dimToInt [Dim.lit 5, Dim.lit 2] := by
  constructor
  · rfl
  · decide

/-- C1 (amended): `compute_dims` maps a plain scalar column to `[-1, 1]`, a list
column without explicit shape (ragged or not) to `[-1, -1]`, and a column with
explicit shape dims to `-1` followed by the remaining dims with `None` and
min/max range pairs replaced by `-1` and literal integers kept; the concrete
shapes `(None, 2)`, `(None, None)`, `(None, (1,4))` and `(None, 3, 4)` map to
`[-1, 2]`, `[-1, -1]`, `[-1, -1]` and `[-1, 3, 4]`; the first element of the
result is always `-1`. -/
theorem c1_compute_dims (cs : ColumnSchema) :
    (cs.dims = none → cs.is_list = false → compute_dims cs = [-1, 1]) ∧
    (cs.dims = none → cs.is_list = true → compute_dims cs = [-1, -1]) ∧
    (∀ ds : List Dim, cs.dims = some ds →
      compute_dims cs = -1 :: (ds.drop 1).map dimToInt) ∧
    (∀ n : Int, cs.dims = some [Dim.var, Dim.lit n] → compute_dims cs = [-1, n]) ∧
    (cs.dims = some [Dim.var, Dim.var] → compute_dims cs = [-1, -1]) ∧
    (∀ lo hi : Int, cs.dims = some [Dim.var, Dim.rangePair lo hi] →
      compute_dims cs = [-1, -1]) ∧
    (∀ m n : Int, cs.dims = some [Dim.var, Dim.lit m, Dim.lit n] →
      compute_dims cs = [-1, m, n]) ∧
    (compute_dims cs).head? = some (-1) := by
  refine ⟨?_, ?_, ?_, ?_, ?_, ?_, ?_, ?_⟩
  · intro hd hl
    simp [compute_dims, hd, hl]
  · intro hd hl
    simp [compute_dims, hd, hl]
  · intro ds hd
    simp [compute_dims, hd]
  · intro n hd
    simp [compute_dims, hd, dimToInt]
  · intro hd
    simp [compute_dims, hd, dimToInt]
  · intro lo hi hd
    simp [compute_dims, hd, dimToInt]
  · intro m n hd
    simp [compute_dims, hd, dimToInt]
  · unfold compute_dims
    match h : cs.dims with
    | some ds => simp
    | none => by_cases hl : cs.is_list <;> simp [hl]

/-- C1 witness: the amended theorem applied to the concrete scalar column of the
unit test, `ColumnSchema("col")`, yields `[-1, 1]`. -/
theorem c1_witness :
    compute_dims { name := "col", dtype := DType.int32 } = [-1, 1] :=
  (c1_compute_dims { name := "col", dtype := DType.int32 }).1 rfl rfl

/-- One tensor of a TensorFlow serving signature as the exporter reads it:
a name, an element dtype (`col.dtype.as_numpy_dtype`), and a shape whose
entries are either a known integer or `None`. -/
structure TensorSig where
  name : String
  dtype : DType
  shape : List (Option Int)
deriving DecidableEq, Repr

/-- The column schema built by `ColumnSchema(col_name, dtype=...)`: scalar,
no list flags, no explicit shape, no properties. -/
def default_column (name : String) (dt : DType) : ColumnSchema :=
  { name := name, dtype := dt }

/-- `PredictTensorflow._set_list_length`: mark the column as a fixed-length
list (`is_list=True, is_ragged=False`) with `value_count` min = max = the
given length. -/
def set_list_length (cs : ColumnSchema) (n : Int) : ColumnSchema :=
  { cs with is_list := true, is_ragged := false, value_count := some (n, n) }

/-- The body of the per-tensor loop in
`PredictTensorflow._construct_schemas_from_model`: build a scalar column with
the tensor's name and dtype, then, if `col.shape[1] and col.shape[1] > 1`,
apply `_set_list_length` with `col.shape[1]`. Indexing `col.shape[1]` on a
shape of rank < 2 raises (modelled as `none`); a `None` second dimension is
falsy in Python, so the short-circuit skips the comparison. -/
def column_from_tensor (t : TensorSig) : Option ColumnSchema :=
  match t.shape.get? 1 with
  | none => none
  | some d2 =>
      some (match d2 with
        | some v =>
            if v ≠ 0 ∧ 1 < v then set_list_length (default_column t.name t.dtype) v
            else default_column t.name t.dtype
        | none => default_column t.name t.dtype)

/-- The per-schema loop of `_construct_schemas_from_model`: one column per
signature tensor, in order; any failing tensor aborts with an exception. -/
def construct_schema : List TensorSig → Option (List ColumnSchema)
  | [] => some []
  | t :: ts =>
      match column_from_tensor t with
      | none => none
      | some c =>
          match construct_schema ts with
          | none => none
          | some cs => some (c :: cs)

/-- `_construct_schemas_from_model` after the signature has been obtained:
derive the input schema from the signature's inputs and the output schema from
its outputs. -/
def construct_schemas_from_signature (sig_inputs sig_outputs : List TensorSig) :
    Option (List ColumnSchema × List ColumnSchema) :=
  match construct_schema sig_inputs, construct_schema sig_outputs with
  | some i, some o => some (i, o)
  | _, _ => none

/-- Columns of a derived schema are exactly the per-tensor translations,
in order. -/
theorem construct_schema_spec (ts : List TensorSig) (cols : List ColumnSchema)
    (h : construct_schema ts = some cols) :
    cols.length = ts.length ∧
      ∀ k : Nat, (ts.get? k).bind column_from_tensor = cols.get? k := by
  induction ts generalizing cols with
  | nil =>
      simp [construct_schema] at h
      subst h
      exact ⟨rfl, fun k => by simp⟩
  | cons t rest ih =>
      unfold construct_schema at h
      cases hc : column_from_tensor t with
      | none => rw [hc] at h; simp at h
      | some c =>
          rw [hc] at h
          cases hr : construct_schema rest with
          | none => rw [hr] at h; simp at h
          | some cs =>
              rw [hr] at h
              simp at h
              obtain ⟨hlen, hget⟩ := ih cs hr
              subst h
              refine ⟨by simp [hlen], ?_⟩
              intro k
              cases k with
              | zero => simpa using hc
              | succ k' => simpa using hget k'

/-- C2: for every signature tensor whose second dimension exists, the derived
column has the tensor's name and dtype; it is marked as a fixed-length list of
length `L` (value_count min = max = `L`, not ragged) exactly when the second
dimension is a known integer `L > 1`, and otherwise it is the plain scalar
column. Together with `construct_schema_spec` this covers every input and
output tensor of the signature. -/
theorem c2_fixed_list_iff (t : TensorSig) (d2 : Option Int)
    (h : t.shape.get? 1 = some d2) :
    ∃ cs : ColumnSchema, column_from_tensor t = some cs ∧
      cs.name = t.name ∧ cs.dtype = t.dtype ∧
      ((cs.is_list = true ∧ cs.is_ragged = false) ↔ ∃ L : Int, d2 = some L ∧ 1 < L) ∧
      (∀ L : Int, d2 = some L → 1 < L →
        cs = set_list_length (default_column t.name t.dtype) L ∧
          cs.value_count = some (L, L)) ∧
      ((¬ ∃ L : Int, d2 = some L ∧ 1 < L) → cs = default_column t.name t.dtype) := by
  unfold column_from_tensor
  rw [h]
  cases d2 with
  | none =>
      refine ⟨default_column t.name t.dtype, rfl, rfl, rfl, ?_, ?_, ?_⟩
      · constructor
        · intro hcontra
          exact absurd hcontra.1 (by simp [default_column])
        · rintro ⟨L, hL, _⟩
          exact absurd hL (by simp)
      · intro L hL
        exact absurd hL (by simp)
      · intro _
        rfl
  | some v =>
      by_cases hv1 : 1 < v
      · have hcond : v ≠ 0 ∧ 1 < v := ⟨by omega, hv1⟩
        refine ⟨set_list_length (default_column t.name t.dtype) v,
          by simp [hcond.1, hcond.2], rfl, rfl, ?_, ?_, ?_⟩
        · constructor
          · intro _
            exact ⟨v, rfl, hv1⟩
          · intro _
            exact ⟨rfl, rfl⟩
        · intro L hL hlt
          injection hL with hL
          subst hL
          exact ⟨rfl, rfl⟩
        · intro hno
          exact absurd ⟨v, rfl, hv1⟩ hno
      · have hcond : ¬ (v ≠ 0 ∧ 1 < v) := fun hc => hv1 hc.2
        refine ⟨default_column t.name t.dtype, by simp [hv1], rfl, rfl, ?_, ?_, ?_⟩
        · constructor
          · intro hcontra
            exact absurd hcontra.1 (by simp [default_column])
          · rintro ⟨L, hL, hlt⟩
            injection hL with hL
            subst hL
            exact absurd hlt hv1
        · intro L hL hlt
          injection hL with hL
          subst hL
          exact absurd hlt hv1
        · intro _
          rfl

/-- C2 witness: a tensor named "a" of dtype float32 with shape `(None, 3)` is
derived as a fixed-length list column of length 3. -/
theorem c2_witness :
    ∃ cs : ColumnSchema,
      column_from_tensor { name := "a", dtype := DType.float32, shape := [none, some 3] } = some cs ∧
      cs.name = "a" ∧ cs.dtype = DType.float32 ∧
      ((cs.is_list = true ∧ cs.is_ragged = false) ↔ ∃ L : Int, (some 3 : Option Int) = some L ∧ 1 < L) ∧
      (∀ L : Int, (some 3 : Option Int) = some L → 1 < L →
        cs = set_list_length (default_column "a" DType.float32) L ∧
          cs.value_count = some (L, L)) ∧
      ((¬ ∃ L : Int, (some 3 : Option Int) = some L ∧ 1 < L) →
        cs = default_column "a" DType.float32) :=
  c2_fixed_list_iff { name := "a", dtype := DType.float32, shape := [none, some 3] }
    (some 3) rfl

/-- A TensorFlow serving signature: the named input tensors
(`structured_input_signature[1]`) and the named output tensors
(`structured_outputs`). -/
structure TFSignature where
  sig_inputs : List TensorSig
  sig_outputs : List TensorSig
deriving DecidableEq, Repr

/-- A TensorFlow model as `_construct_schemas_from_model` observes it:
the `signatures` mapping it exposes directly, and the `signatures` mapping
of the model obtained by saving it to a temporary directory and reloading it
(the round-trip regenerates signatures as a side effect of saving). -/
structure TFModel where
  signatures : List (String × TFSignature)
  reloaded_signatures : List (String × TFSignature)
deriving DecidableEq, Repr

/-- The error raised when `reloaded.signatures["serving_default"]` finds no
entry after the save/reload round trip (a KeyError in Python); it is not
caught anywhere in `_construct_schemas_from_model`, so it propagates. -/
inductive SchemaErr where
  | signatureUnavailable
deriving DecidableEq, Repr

/-- Dictionary lookup on a signatures mapping (`signatures.get(key)` /
`signatures[key]`). -/
def lookup_signature (sigs : List (String × TFSignature)) (key : String) :
    Option TFSignature :=
  (sigs.find? (fun p => p.1 == key)).map Prod.snd

/-- The signature-selection logic of
`PredictTensorflow._construct_schemas_from_model`: use the model's own
`serving_default` signature when present; otherwise save and reload the model
once and take `serving_default` from the reloaded model; if that is still
absent, the lookup raises and the error propagates to the caller. -/
def get_default_signature (m : TFModel) : Except SchemaErr TFSignature :=
  match lookup_signature m.signatures "serving_default" with
  | some s => Except.ok s
  | none =>
      match lookup_signature m.reloaded_signatures "serving_default" with
      | some s => Except.ok s
      | none => Except.error SchemaErr.signatureUnavailable

/-- C3: schema derivation is a two-step fallback: a directly exposed
`serving_default` signature is used as-is; otherwise the signature of the
once-reloaded model is used; if neither exists the operation fails with an
error that propagates (it is never masked into a success). -/
theorem c3_two_step_fallback (m : TFModel) :
    (∀ s : TFSignature, lookup_signature m.signatures "serving_default" = some s →
      get_default_signature m = Except.ok s) ∧
    (lookup_signature m.signatures "serving_default" = none →
      ∀ s : TFSignature, lookup_signature m.reloaded_signatures "serving_default" = some s →
        get_default_signature m = Except.ok s) ∧
    (lookup_signature m.signatures "serving_default" = none →
      lookup_signature m.reloaded_signatures "serving_default" = none →
      get_default_signature m = Except.error SchemaErr.signatureUnavailable) := by
  refine ⟨?_, ?_, ?_⟩
  · intro s hs
    simp [get_default_signature, hs]
  · intro h1 s hs
    simp [get_default_signature, h1, hs]
  · intro h1 h2
    simp [get_default_signature, h1, h2]

/-- A signature used by the C3 witness. -/
def sig_ab_c : TFSignature :=
  { sig_inputs := [{ name := "a", dtype := DType.float32, shape := [none, some 1] },
                   { name := "b", dtype := DType.float32, shape := [none, some 1] }]
  , sig_outputs := [{ name := "c", dtype := DType.float32, shape := [none, some 1] }] }

/-- A model that exposes `serving_default` directly. -/
def model_direct : TFModel :=
  { signatures := [("serving_default", sig_ab_c)], reloaded_signatures := [] }

/-- A model that exposes `serving_default` only after the save/reload round
trip. -/
def model_after_reload : TFModel :=
  { signatures := [], reloaded_signatures := [("serving_default", sig_ab_c)] }

/-- A model that never exposes `serving_default`. -/
def model_no_signature : TFModel :=
  { signatures := [], reloaded_signatures := [] }

/-- C3 witness: the fallback theorem applied to three concrete models, one per
branch: a model exposing `serving_default` directly, one exposing it only
after reload, and one never exposing it. -/
theorem c3_witness :
    get_default_signature model_direct = Except.ok sig_ab_c ∧
    get_default_signature model_after_reload = Except.ok sig_ab_c ∧
    get_default_signature model_no_signature =
      Except.error SchemaErr.signatureUnavailable :=
  ⟨(c3_two_step_fallback model_direct).1 sig_ab_c rfl,
   (c3_two_step_fallback model_after_reload).2.1 rfl sig_ab_c rfl,
   (c3_two_step_fallback model_no_signature).2.2 rfl rfl⟩

/-- `PredictTensorflow.export_name`: the operator class name, lowercased
(`self.__class__.__name__.lower()`). -/
def export_name : String := String.mk ("PredictTensorflow".data.map Char.toLower)

/-- The package directory name computed at the top of
`PredictTensorflow.export`: `f"{node_id}_{export_name}"` when a `node_id` is
given, else just the export name. -/
def node_name (node_id : Option Int) : String :=
  match node_id with
  | some i => toString i ++ "_" ++ export_name
  | none => export_name

/-- The state of a `PredictTensorflow` instance that `export` reads: whether
the operator was constructed from a path (`self.path`, `None` when it wrapped
an in-memory model) and the recorded Triton model name
(`self._tf_model_name`). -/
structure OpState where
  path : Option String := none
  tf_model_name : Option String := none
deriving DecidableEq, Repr

/-- How the model artifact is materialized by `export`: copied with
`copytree` from the construction path, or written with `model.save`. -/
inductive ArtifactAction where
  | copied_from (src : String)
  | saved_in_memory_model
deriving DecidableEq, Repr

/-- The filesystem-facing outcome of `PredictTensorflow.export`: the package
directory, the model-artifact subpath, how the artifact got there
(`if self.path: copytree(...) else: model.save(...)`), the config file path,
and the recorded Triton model name (`set_tf_model_name(node_name)`). -/
structure ExportPaths where
  node_dir : String
  model_path : String
  action : ArtifactAction
  config_path : String
  recorded_name : String
deriving DecidableEq, Repr

/-- The path and naming behaviour of `PredictTensorflow.export`: build the
package directory `<path>/<node_name>`, place the artifact at
`<version>/model.savedmodel` inside it (copied from `self.path` when that is
set and non-empty — Python truthiness — else saved from the in-memory model),
write `config.pbtxt` in the package directory, and record the package name. -/
def export_op (op : OpState) (path : String) (node_id : Option Int)
    (version : Int) : ExportPaths :=
  let nn := node_name node_id
  let node_export_path := path ++ "/" ++ nn
  { node_dir := node_export_path
  , model_path := node_export_path ++ "/" ++ toString version ++ "/model.savedmodel"
  , action :=
      match op.path with
      | some p => if p ≠ "" then ArtifactAction.copied_from p
                  else ArtifactAction.saved_in_memory_model
      | none => ArtifactAction.saved_in_memory_model
  , config_path := node_export_path ++ "/config.pbtxt"
  , recorded_name := nn }

/-- C4: the package directory name is `<node_id>_<export_name>` when a node id
is present and just the export name otherwise, with the export name being the
class name lowercased; the name does not depend on the operator instance, so
two exports with the same node id and export name yield the same directory. -/
theorem c4_package_name (op₁ op₂ : OpState) (path : String) (node_id : Option Int)
    (version₁ version₂ : Int) :
    (∀ i : Int, node_id = some i →
      node_name node_id = toString i ++ "_" ++ export_name) ∧
    (node_id = none → node_name node_id = export_name) ∧
    export_name = "predicttensorflow" ∧
    (export_op op₁ path node_id version₁).node_dir =
      (export_op op₂ path node_id version₂).node_dir ∧
    (export_op op₁ path node_id version₁).node_dir = path ++ "/" ++ node_name node_id := by
  refine ⟨?_, ?_, ?_, ?_, ?_⟩
  · intro i hi
    simp [node_name, hi]
  · intro hi
    simp [node_name, hi]
  · decide
  · rfl
  · rfl

/-- C4 witness: exporting under `/tmp/ens` with node id 0 names the package
directory `0_predicttensorflow`, for any two operator states. -/
theorem c4_witness :
    node_name (some 0) = toString (0 : Int) ++ "_" ++ export_name ∧
      (export_op { path := none } "ens" (some 0) 1).node_dir =
        (export_op { path := some "m" } "ens" (some 0) 2).node_dir :=
  ⟨(c4_package_name { path := none } { path := some "m" } "ens" (some 0) 1 2).1 0 rfl,
   (c4_package_name { path := none } { path := some "m" } "ens" (some 0) 1 2).2.2.2.1⟩

/-- C5: the model artifact always goes to the `<version>/model.savedmodel`
subpath of the package directory; it is copied with `copytree` from the
construction path when the operator was built from a (non-empty) path, and
written with `model.save` when the operator wraps an in-memory model
(`self.path is None`). -/
theorem c5_artifact_placement (op : OpState) (path : String) (node_id : Option Int)
    (version : Int) :
    (export_op op path node_id version).model_path =
      (export_op op path node_id version).node_dir ++ "/" ++ toString version ++
        "/model.savedmodel" ∧
    (∀ p : String, op.path = some p → p ≠ "" →
      (export_op op path node_id version).action = ArtifactAction.copied_from p) ∧
    (op.path = none →
      (export_op op path node_id version).action =
        ArtifactAction.saved_in_memory_model) := by
  refine ⟨rfl, ?_, ?_⟩
  · intro p hp hne
    simp [export_op, hp, hne]
  · intro hp
    simp [export_op, hp]

/-- C5 witness: the placement theorem at concrete arguments, once for an
operator constructed from the path "saved" and once for an in-memory model. -/
theorem c5_witness :
    (export_op { path := some "saved" } "out" (some 1) 1).action =
        ArtifactAction.copied_from "saved" ∧
      (export_op { path := none } "out" (some 1) 1).action =
        ArtifactAction.saved_in_memory_model ∧
      (export_op { path := none } "out" (some 1) 1).model_path =
        (export_op { path := none } "out" (some 1) 1).node_dir ++ "/" ++
          toString (1 : Int) ++ "/model.savedmodel" :=
  ⟨(c5_artifact_placement { path := some "saved" } "out" (some 1) 1).2.1 "saved" rfl
      (by decide),
   (c5_artifact_placement { path := none } "out" (some 1) 1).2.2 rfl,
   (c5_artifact_placement { path := none } "out" (some 1) 1).1⟩

/-- One `ModelInput`/`ModelOutput` descriptor of the Triton model config:
a name, a data type, and a dims list. -/
structure ModelParam where
  param_name : String
  data_type : DType
  dims : List Int
deriving DecidableEq, Repr

/-- Modelled from the spec: `add_model_param` from
`merlin/systems/dag/ops/operator.py` (imported by `tensorflow.py` but not
among the provided sources) appends to the config's input/output list a
descriptor carrying the column's name, its data type, and the supplied dims. -/
def add_model_param (cs : ColumnSchema) (dims : List Int) : ModelParam :=
  { param_name := cs.name, data_type := cs.dtype, dims := dims }

/-- The Triton `ModelConfig` message as `_export_model_config` fills it in:
name, backend, platform, input and output descriptor lists, and the string
parameters map. -/
structure ModelConfig where
  config_name : String
  backend : String
  platform : String
  config_inputs : List ModelParam
  config_outputs : List ModelParam
  parameters : List (String × String)
deriving DecidableEq, Repr

/-- `PredictTensorflow._export_model_config` (the message it serializes to
`config.pbtxt`): a config named after the package with backend "tensorflow"
and platform "tensorflow_savedmodel", the two signature-selection string
parameters, and one descriptor per input/output schema column, each built by
`add_model_param` with the dims from `compute_dims`. -/
def export_model_config (name : String)
    (input_schema output_schema : List ColumnSchema) : ModelConfig :=
  { config_name := name
  , backend := "tensorflow"
  , platform := "tensorflow_savedmodel"
  , config_inputs := input_schema.map (fun cs => add_model_param cs (compute_dims cs))
  , config_outputs := output_schema.map (fun cs => add_model_param cs (compute_dims cs))
  , parameters := [("TF_GRAPH_TAG", "serve"), ("TF_SIGNATURE_DEF", "serving_default")] }

/-- C6: the exported config carries the package name, backend "tensorflow",
platform "tensorflow_savedmodel", exactly one descriptor per input-schema
column and one per output-schema column — each with that column's name, data
type and `compute_dims` dims — and exactly the two string parameters
`TF_GRAPH_TAG = "serve"` and `TF_SIGNATURE_DEF = "serving_default"`; the
config is written to the file `config.pbtxt` in the package directory. -/
theorem c6_model_config (name : String)
    (input_schema output_schema : List ColumnSchema) (op : OpState)
    (path : String) (node_id : Option Int) (version : Int) :
    (export_model_config name input_schema output_schema).config_name = name ∧
    (export_model_config name input_schema output_schema).backend = "tensorflow" ∧
    (export_model_config name input_schema output_schema).platform =
      "tensorflow_savedmodel" ∧
    (export_model_config name input_schema output_schema).config_inputs =
      input_schema.map (fun cs => add_model_param cs (compute_dims cs)) ∧
    (export_model_config name input_schema output_schema).config_outputs =
      output_schema.map (fun cs => add_model_param cs (compute_dims cs)) ∧
    (export_model_config name input_schema output_schema).config_inputs.length =
      input_schema.length ∧
    (export_model_config name input_schema output_schema).config_outputs.length =
      output_schema.length ∧
    (export_model_config name input_schema output_schema).parameters =
      [("TF_GRAPH_TAG", "serve"), ("TF_SIGNATURE_DEF", "serving_default")] ∧
    (export_op op path node_id version).config_path =
      (export_op op path node_id version).node_dir ++ "/config.pbtxt" :=
  ⟨rfl, rfl, rfl, rfl, rfl, by simp [export_model_config], by simp [export_model_config],
    rfl, rfl⟩

/-- Opaque tensor payloads: `transform` only moves them between containers,
never inspecting them, so their representation does not matter. -/
abbrev Tensor := List Int

/-- A column container (DataFrame / TensorTable): named tensors in order. -/
abbrev Container := List (String × Tensor)

/-- Dictionary-style access `transformable[col_name]` /
`get_output_tensor_by_name(response, name)`. -/
def lookup_tensor (c : Container) (key : String) : Option Tensor :=
  (c.find? (fun p => p.1 == key)).map Prod.snd

/-- The state of a `PredictTensorflow` instance that `transform` reads: the
column names of the recorded input and output schemas, and the recorded Triton
model name. -/
structure TransformState where
  input_columns : List String
  output_columns : List String
  tf_model_name : Option String
deriving DecidableEq, Repr

/-- The `pb_utils.InferenceRequest` built by `transform`: target model name,
requested output names, and the named input tensors. -/
structure InferenceRequest where
  model_name : Option String
  requested_output_names : List String
  request_inputs : List (String × Tensor)
deriving DecidableEq, Repr

/-- Collecting one named tensor per given column name from a container,
in order; a missing name raises (the for-loops over
`self.input_schema.column_schemas.keys()` and
`self.output_schema.column_schemas.keys()` in `transform`). -/
def collect_named (names : List String) (src : Container) : Option Container :=
  match names with
  | [] => some []
  | n :: ns =>
      match lookup_tensor src n with
      | none => none
      | some t =>
          match collect_named ns src with
          | none => none
          | some rest => some ((n, t) :: rest)

/-- The request-building half of `PredictTensorflow.transform`: one tensor per
input-schema column taken from the container by name, target model
`self.tf_model_name`, requested outputs the output-schema column names. -/
def build_inference_request (op : TransformState) (transformable : Container) :
    Option InferenceRequest :=
  match collect_named op.input_columns transformable with
  | none => none
  | some input_tensors =>
      some { model_name := op.tf_model_name
           , requested_output_names := op.output_columns
           , request_inputs := input_tensors }

/-- The response-unpacking half of `PredictTensorflow.transform`: one tensor
per output-schema column, taken from the inference response by name, into a new
container. -/
def assemble_outputs (op : TransformState) (response : Container) : Option Container :=
  collect_named op.output_columns response

/-- `PredictTensorflow.transform`: build the single inference request, execute
it (`inference_request.exec()`, the external serving call, passed in as a
function), and re-assemble the requested output columns from the response. -/
def transform (op : TransformState) (transformable : Container)
    (exec : InferenceRequest → Container) : Option Container :=
  match build_inference_request op transformable with
  | none => none
  | some req => assemble_outputs op (exec req)

/-- Collected containers pair each requested name, in order, with the tensor
found in the source container under that name. -/
theorem collect_named_spec (names : List String) (src out : Container)
    (h : collect_named names src = some out) :
    out.map Prod.fst = names ∧ ∀ p ∈ out, lookup_tensor src p.1 = some p.2 := by
  induction names generalizing out with
  | nil =>
      simp [collect_named] at h
      subst h
      simp
  | cons n ns ih =>
      unfold collect_named at h
      cases ht : lookup_tensor src n with
      | none => rw [ht] at h; simp at h
      | some t =>
          rw [ht] at h
          cases hr : collect_named ns src with
          | none => rw [hr] at h; simp at h
          | some rest =>
              rw [hr] at h
              simp at h
              obtain ⟨hmap, hmem⟩ := ih rest hr
              subst h
              refine ⟨by simp [hmap], ?_⟩
              intro p hp
              rcases List.mem_cons.mp hp with hp | hp
              · subst hp; exact ht
              · exact hmem p hp

/-- C7: for every input container, `transform` builds one inference request
addressed to the recorded model name, carrying one named tensor per
input-schema column taken from the container by name and requesting exactly
the output-schema column names; the behaviour depends on the external call only
through its answer to that single request, and the result holds one tensor per
output-schema column taken from the response by name — with no constraint on
the tensors' shapes or dtypes and no second request on failure. -/
theorem c7_transform_marshalling (op : TransformState) (transformable : Container)
    (req : InferenceRequest)
    (hreq : build_inference_request op transformable = some req) :
    req.model_name = op.tf_model_name ∧
    req.requested_output_names = op.output_columns ∧
    req.request_inputs.map Prod.fst = op.input_columns ∧
    (∀ p ∈ req.request_inputs, lookup_tensor transformable p.1 = some p.2) ∧
    (∀ exec : InferenceRequest → Container,
      transform op transformable exec = assemble_outputs op (exec req)) ∧
    (∀ exec₁ exec₂ : InferenceRequest → Container, exec₁ req = exec₂ req →
      transform op transformable exec₁ = transform op transformable exec₂) ∧
    (∀ response out : Container, assemble_outputs op response = some out →
      out.map Prod.fst = op.output_columns ∧
        ∀ p ∈ out, lookup_tensor response p.1 = some p.2) := by
  unfold build_inference_request at hreq
  cases hc : collect_named op.input_columns transformable with
  | none => rw [hc] at hreq; simp at hreq
  | some input_tensors =>
      rw [hc] at hreq
      simp at hreq
      obtain ⟨hmap, hmem⟩ := collect_named_spec op.input_columns transformable
        input_tensors hc
      subst hreq
      refine ⟨rfl, rfl, hmap, hmem, ?_, ?_, ?_⟩
      · intro exec
        simp [transform, build_inference_request, hc]
      · intro exec₁ exec₂ hagree
        simp [transform, build_inference_request, hc, hagree]
      · intro response out hout
        exact collect_named_spec op.output_columns response out hout

/-- The operator state used by the C7 witness: input columns "a", "b", output
column "c", model name "0_predicttensorflow". -/
def c7_op : TransformState :=
  { input_columns := ["a", "b"], output_columns := ["c"]
  , tf_model_name := some "0_predicttensorflow" }

/-- The input container used by the C7 witness. -/
def c7_container : Container := [("a", [1, 2]), ("b", [3]), ("extra", [9])]

/-- The request `transform` builds in the C7 witness. -/
def c7_req : InferenceRequest :=
  { model_name := some "0_predicttensorflow"
  , requested_output_names := ["c"]
  , request_inputs := [("a", [1, 2]), ("b", [3])] }

/-- C7 witness: the marshalling theorem applied to a concrete operator state
and container; the built request addresses the recorded model name and carries
the "a" and "b" tensors. -/
theorem c7_witness :
    c7_req.model_name = c7_op.tf_model_name ∧
      c7_req.requested_output_names = c7_op.output_columns ∧
      c7_req.request_inputs.map Prod.fst = c7_op.input_columns :=
  ⟨(c7_transform_marshalling c7_op c7_container c7_req rfl).1,
   (c7_transform_marshalling c7_op c7_container c7_req rfl).2.1,
   (c7_transform_marshalling c7_op c7_container c7_req rfl).2.2.1⟩

/-- One pipeline step as the serving runtime sees it: a transform that either
produces a container or raises with an error message. -/
abbrev PipelineStep := Container → Except String Container

/-- Modelled from the spec: the ensemble serving runtime (Triton plus the
merlin ensemble executor, not among the provided sources) runs the operators
of the pipeline in order, feeding each the previous output; an error raised by
any operator is not caught locally and propagates verbatim as the result of
the top-level inference call. -/
def run_ensemble (steps : List PipelineStep) (x : Container) :
    Except String Container :=
  match steps with
  | [] => Except.ok x
  | s :: rest =>
      match s x with
      | Except.ok y => run_ensemble rest y
      | Except.error e => Except.error e

/-- C8: if the steps before a failing transform succeed and that transform
raises a domain error, the top-level inference call fails and the original
error message appears (as a substring — in fact verbatim) in the error
surfaced to the caller. -/
theorem c8_error_propagation (pre post : List PipelineStep) (s : PipelineStep)
    (x y : Container) (msg : String)
    (hpre : run_ensemble pre x = Except.ok y) (hs : s y = Except.error msg) :
    ∃ e : String, run_ensemble (pre ++ s :: post) x = Except.error e ∧
      ∃ l r : List Char, e.data = l ++ msg.data ++ r := by
  refine ⟨msg, ?_, [], [], by simp⟩
  induction pre generalizing x with
  | nil =>
      simp [run_ensemble] at hpre
      subst hpre
      simp [run_ensemble, hs]
  | cons p rest ih =>
      unfold run_ensemble at hpre
      cases hp : p x with
      | ok z =>
          rw [hp] at hpre
          simpa [run_ensemble, hp] using ih z hpre
      | error e => rw [hp] at hpre; simp at hpre

/-- A failing pipeline step used by the C8 witness, raising the message of the
repository's error-propagation test. -/
def c8_failing_step : PipelineStep := fun _ => Except.error "Number Too High!!"

/-- C8 witness: the propagation theorem applied to a concrete pipeline whose
second step raises "Number Too High!!" after an identity first step. -/
theorem c8_witness :
    ∃ e : String,
      run_ensemble [fun c => Except.ok c, c8_failing_step] [] = Except.error e ∧
        ∃ l r : List Char, e.data = l ++ "Number Too High!!".data ++ r :=
  c8_error_propagation [fun c => Except.ok c] [] c8_failing_step [] []
    "Number Too High!!" rfl rfl

/-- Filesystem events of the signature-regeneration round trip: creating the
scoped temporary directory, writing below a path, and removing the directory
tree. -/
inductive FsEvent where
  | mk_temp_dir (d : String)
  | fs_write (target : String)
  | remove_tree (d : String)
deriving DecidableEq, Repr

/-- The `with tempfile.TemporaryDirectory() as tmp_dir:` block in
`_construct_schemas_from_model`, with CPython's context-manager guarantee:
the directory is created on entry and the whole tree is removed on exit, on
normal completion and on an exception alike; the body's result (normal or
raised) passes through unchanged. -/
def with_temporary_directory {α : Type} (d : String)
    (body : List FsEvent × Except SchemaErr α) :
    List FsEvent × Except SchemaErr α :=
  (FsEvent.mk_temp_dir d :: body.1 ++ [FsEvent.remove_tree d], body.2)

/-- The body of the regeneration block: `model.save` writes the artifact at
`<tmp_dir>/model.savedmodel` (its only write target), the model is reloaded,
and `reloaded.signatures["serving_default"]` either yields the signature or
raises. -/
def regen_body (d : String) (m : TFModel) :
    List FsEvent × Except SchemaErr TFSignature :=
  ([FsEvent.fs_write (d ++ "/model.savedmodel")],
   match lookup_signature m.reloaded_signatures "serving_default" with
   | some s => Except.ok s
   | none => Except.error SchemaErr.signatureUnavailable)

/-- The signature-regeneration step of `_construct_schemas_from_model`: the
save/reload round trip run inside the scoped temporary directory `d`. -/
def regenerate_signature (d : String) (m : TFModel) :
    List FsEvent × Except SchemaErr TFSignature :=
  with_temporary_directory d (regen_body d m)

/-- C9: in every execution of the regeneration step — succeeding or raising —
the last filesystem event removes the temporary directory, and every event of
the step concerns that directory: its creation, a write strictly below it, or
its removal; in particular the cleanup also happens on the raising runs. -/
theorem c9_temp_dir_cleanup (d : String) (m : TFModel) :
    ((regenerate_signature d m).1).getLast? = some (FsEvent.remove_tree d) ∧
    (∀ e ∈ (regenerate_signature d m).1,
      e = FsEvent.mk_temp_dir d ∨ (∃ s : String, e = FsEvent.fs_write (d ++ s)) ∨
        e = FsEvent.remove_tree d) ∧
    (lookup_signature m.reloaded_signatures "serving_default" = none →
      (regenerate_signature d m).2 = Except.error SchemaErr.signatureUnavailable ∧
        ((regenerate_signature d m).1).getLast? = some (FsEvent.remove_tree d)) := by
  refine ⟨?_, ?_, ?_⟩
  · simp [regenerate_signature, with_temporary_directory, regen_body]
  · intro e he
    simp [regenerate_signature, with_temporary_directory, regen_body] at he
    rcases he with he | he | he
    · exact Or.inl he
    · exact Or.inr (Or.inl ⟨"/model.savedmodel", he⟩)
    · exact Or.inr (Or.inr he)
  · intro hmiss
    refine ⟨?_, ?_⟩
    · simp [regenerate_signature, with_temporary_directory, regen_body, hmiss]
    · simp [regenerate_signature, with_temporary_directory, regen_body]

/-- C9 witness: the cleanup theorem applied to a concrete raising run — a
model with no regenerated signature under the temporary directory "tmp0" —
still ends by removing "tmp0". -/
theorem c9_witness :
    (regenerate_signature "tmp0" model_no_signature).2 =
        Except.error SchemaErr.signatureUnavailable ∧
      ((regenerate_signature "tmp0" model_no_signature).1).getLast? =
        some (FsEvent.remove_tree "tmp0") :=
  (c9_temp_dir_cleanup "tmp0" model_no_signature).2.2 rfl

/-- What the environment resolves for `tf.keras.models.load_model`: which
paths hold a loadable model and which model they hold. -/
structure LoadEnv where
  load_model : String → Option TFModel

/-- A Python value as far as `from_path`'s result is concerned: `None` (what
`__init__` returns) or an actual operator instance. -/
inductive PyValue where
  | pynone
  | instance_of (op : OpState)
deriving DecidableEq, Repr

/-- The exceptions `__init__` can raise: the load from disk fails, no serving
signature exists even after regeneration, or a signature tensor has no second
dimension. -/
inductive InitErr where
  | load_failed
  | signature_unavailable
  | shape_index_error
deriving DecidableEq, Repr

/-- `PredictTensorflow.__init__` viewed as the plain function that
`cls.__init__(path, **kwargs)` invokes: it loads the model from the path,
derives the input and output schemas, stores them on the object — and, like
every Python `__init__`, returns `None` when it does not raise. -/
def predict_tensorflow_init (env : LoadEnv) (path : String) :
    Except InitErr PyValue :=
  match env.load_model path with
  | none => Except.error InitErr.load_failed
  | some m =>
      match get_default_signature m with
      | Except.error _ => Except.error InitErr.signature_unavailable
      | Except.ok sig =>
          match construct_schemas_from_signature sig.sig_inputs sig.sig_outputs with
          | none => Except.error InitErr.shape_index_error
          | some _ => Except.ok PyValue.pynone

/-- `PredictTensorflow.from_path`: `return cls.__init__(path, **kwargs)` — the
classmethod allocates no instance and returns whatever `__init__` returns. -/
def from_path (env : LoadEnv) (path : String) : Except InitErr PyValue :=
  predict_tensorflow_init env path

/-- C10: for every environment and path, whenever `from_path` returns without
raising, its value is Python's `None` — never a constructed
`PredictTensorflow` instance — because it returns the result of calling
`__init__` directly. -/
theorem c10_from_path_returns_none (env : LoadEnv) (path : String) (v : PyValue)
    (h : from_path env path = Except.ok v) :
    v = PyValue.pynone ∧ ∀ s : OpState, v ≠ PyValue.instance_of s := by
  unfold from_path predict_tensorflow_init at h
  split at h
  · exact absurd h (by simp)
  · split at h
    · exact absurd h (by simp)
    · split at h
      · exact absurd h (by simp)
      · have hv : v = PyValue.pynone := by
          injection h with h
          exact h.symm
        subst hv
        exact ⟨rfl, fun s hcontra => PyValue.noConfusion hcontra⟩

/-- The environment of the C10 witness: the path "model_dir" holds a model
with a direct `serving_default` signature. -/
def c10_env : LoadEnv :=
  { load_model := fun p => if p = "model_dir" then some model_direct else none }

/-- C10 witness: in the concrete environment, `from_path` on "model_dir"
succeeds and returns `None`, not an instance. -/
theorem c10_witness :
    from_path c10_env "model_dir" = Except.ok PyValue.pynone ∧
      PyValue.pynone ≠ PyValue.instance_of { } :=
  ⟨rfl, (c10_from_path_returns_none c10_env "model_dir" PyValue.pynone rfl).2 { }⟩
